import Mathlib

/-!
Shallow embedding of the `model_fn` defined in `abalone.py` (shown in full in
`tensorflow_abalone_age_predictor_using_keras-v2.ipynb`): a feed-forward
regression network with two ReLU hidden layers of 10 units over 7 input
features and a single linear output unit, mean-squared-error loss, an SGD
training op built by `tf.contrib.layers.optimize_loss` (which also increments
the global step), and an rmse evaluation metric whose labels are cast to
float32.

Numeric values are embedded as exact rationals (ℚ) standing in for the
notebook's float32 tensors; integer ring-count labels are ℤ.  A dense layer is
a list of units, each unit a weight vector paired with a bias.  Failures that
the TensorFlow runtime raises during graph construction (tensor shape
mismatches in the dense layers' matmul, the explicit labels-is-None check and
the labels/predictions shape-compatibility check inside
`tf.losses.mean_squared_error`) are embedded as `Except.error`; the
`EstimatorSpec` constructor itself does not reject mode strings outside the
three `ModeKeys` values.
-/

namespace Abalone

/-- A vector of float32 values, embedded as exact rationals. -/
abbrev Vec := List ℚ

/-- A dense layer: one (weight vector, bias) pair per unit. -/
abbrev Layer := List (Vec × ℚ)

/-- Dot product of two vectors. -/
def dot (a b : Vec) : ℚ := (List.zipWith (fun x y => x * y) a b).sum

/-- Rectified linear activation, elementwise `max 0 x`. -/
def relu (x : ℚ) : ℚ := max 0 x

/-- Pre-activations of a dense layer on one input row: `x·W + b` per unit. -/
def denseLinear (L : Layer) (x : Vec) : Vec := L.map (fun u => dot u.1 x + u.2)

/-- Shape check performed by the dense layer's matmul: every unit's weight
vector must match the input dimension. -/
def layerShapesOk (L : Layer) (inDim : ℕ) : Bool := L.all (fun u => u.1.length == inDim)

/-- The persistent parameter state of the model: the three dense layers built
by `model_fn` (`first_hidden_layer`, `second_hidden_layer`, `output_layer`)
and the global step variable maintained by `tf.contrib.framework.get_global_step`. -/
structure Params where
  w1 : Layer
  w2 : Layer
  w3 : Layer
  globalStep : ℕ
deriving DecidableEq

/-- Well-formedness of the parameter state for the source's architecture:
`Dense(10)` on 7 features, `Dense(10)` on 10, `Dense(1)` on 10. -/
def Params.wf (p : Params) : Prop :=
  p.w1.length = 10 ∧ (∀ u ∈ p.w1, u.1.length = 7) ∧
  p.w2.length = 10 ∧ (∀ u ∈ p.w2, u.1.length = 10) ∧
  p.w3.length = 1 ∧ (∀ u ∈ p.w3, u.1.length = 10)

instance (p : Params) : Decidable p.wf := by
  unfold Params.wf; infer_instance

/-- The `first_hidden_layer`: Dense(10) with relu activation on one feature row. -/
def hidden1 (p : Params) (x : Vec) : Vec := (denseLinear p.w1 x).map relu

/-- The `second_hidden_layer`: Dense(10) with relu activation. -/
def hidden2 (p : Params) (x : Vec) : Vec := (denseLinear p.w2 (hidden1 p x)).map relu

/-- The `output_layer` on one row: Dense(1) with linear activation, giving the
row of the `[n, 1]` output tensor. -/
def outputRow (p : Params) (x : Vec) : Vec := denseLinear p.w3 (hidden2 p x)

/-- The `[n, 1]` output tensor of the final dense layer over a feature batch. -/
def output_layer (p : Params) (xs : List Vec) : List Vec := xs.map (outputRow p)

/-- Embedding of `tf.reshape(output_layer, [-1])`: row-major flattening to a 1-dim tensor. -/
def reshapeFlat (t : List Vec) : Vec := t.flatten

/-- The `predictions` tensor: the flattened output, one scalar per input row. -/
def predictionsOf (p : Params) (xs : List Vec) : Vec := reshapeFlat (output_layer p xs)

/-- Scalar network output for one row (the sole unit of the Dense(1) layer). -/
def rowOut (p : Params) (x : Vec) : ℚ := (outputRow p x).sum

/-- Shape checks performed while the three dense layers are built on the
feature batch (TensorFlow matmul rejects mismatched inner dimensions). -/
def shapesOk (p : Params) (xs : List Vec) : Bool :=
  xs.all (fun x => layerShapesOk p.w1 x.length)
    && layerShapesOk p.w2 p.w1.length
    && layerShapesOk p.w3 p.w2.length

/-- Cast of the integer label tensor to floating point; performed by
`math_ops.to_float` inside `tf.losses.mean_squared_error` and by the source's
`tf.cast(labels, tf.float32)` in the rmse metric (ring counts are exactly
representable in float32). -/
def to_float (ys : List ℤ) : Vec := List.map (fun i : ℤ => (i : ℚ)) ys

/-- Mean of squared differences of two equal-length vectors. -/
def meanSq (ys ps : Vec) : ℚ :=
  (List.zipWith (fun a b => (a - b) ^ 2) ys ps).sum / (ys.length : ℚ)

/-- Embedding of `tf.losses.mean_squared_error(labels, predictions)`. -/
def mean_squared_error (ys ps : Vec) : ℚ := meanSq ys ps

/-- An rmse metric op: TensorFlow's `tf.metrics.root_mean_squared_error`
builds a graph node; it records the mean of squared differences, and the
metric's realized value is the real square root of that mean. -/
structure MetricOp where
  msq : ℚ
deriving DecidableEq

/-- Embedding of `tf.metrics.root_mean_squared_error(labels, predictions)`. -/
def root_mean_squared_error (ys ps : Vec) : MetricOp := ⟨meanSq ys ps⟩

/-- Embedding of `tf.estimator.ModeKeys.TRAIN`. -/
def ModeKeys.TRAIN : String := "train"

/-- Embedding of `tf.estimator.ModeKeys.EVAL`. -/
def ModeKeys.EVAL : String := "eval"

/-- Embedding of `tf.estimator.ModeKeys.PREDICT`. -/
def ModeKeys.PREDICT : String := "infer"

/-- The `SIGNATURE_NAME` constant from the source. -/
def SIGNATURE_NAME : String := "serving_default"

/-- The `INPUT_TENSOR_NAME` constant from the source. -/
def INPUT_TENSOR_NAME : String := "inputs"

/-- The `LEARNING_RATE = 0.001` constant from the source. -/
def LEARNING_RATE : ℚ := 1 / 1000

/-- The hyperparameters dict; the source reads `params["learning_rate"]`. -/
structure HParams where
  learning_rate : ℚ
deriving DecidableEq

/-- Embedding of `tf.estimator.EstimatorSpec`.  A training op, once run by the driver,
yields a new parameter state, so it is embedded as that state. -/
structure EstimatorSpec where
  mode : String
  predictions : List (String × Vec)
  loss : Option ℚ
  train_op : Option Params
  eval_metric_ops : List (String × MetricOp)
  export_outputs : List (String × List (String × Vec))
deriving DecidableEq

/-- Gradients of the loss with respect to the three layers' parameters,
shaped like the layers themselves. -/
structure Grads where
  g1 : Layer
  g2 : Layer
  g3 : Layer
deriving DecidableEq

/-- Scale a vector by a constant. -/
def scaleVec (c : ℚ) (v : Vec) : Vec := v.map (fun x => c * x)

/-- Elementwise sum of two vectors. -/
def addVec (a b : Vec) : Vec := List.zipWith (fun x y => x + y) a b

/-- Elementwise difference of two vectors. -/
def subVec (a b : Vec) : Vec := List.zipWith (fun x y => x - y) a b

/-- The zero vector of a given length. -/
def zeroVec (n : ℕ) : Vec := List.replicate n 0

/-- Sum of a list of vectors of length `n`. -/
def sumVecs (l : List Vec) (n : ℕ) : Vec := l.foldl addVec (zeroVec n)

/-- Derivative of relu as TensorFlow's ReluGrad computes it: 1 for positive
pre-activations, 0 otherwise (including at 0). -/
def reluGrad (t : ℚ) : ℚ := if 0 < t then 1 else 0

/-- A zero gradient shaped like a given layer. -/
def zeroLayer (L : Layer) : Layer := L.map (fun u => (zeroVec u.1.length, 0))

/-- The zero gradient for a parameter state. -/
def Grads.zero (p : Params) : Grads := ⟨zeroLayer p.w1, zeroLayer p.w2, zeroLayer p.w3⟩

/-- Pointwise sum of two layer-shaped gradients. -/
def layerAdd (A B : Layer) : Layer :=
  List.zipWith (fun u v => (addVec u.1 v.1, u.2 + v.2)) A B

/-- Pointwise sum of two gradients. -/
def Grads.add (A B : Grads) : Grads :=
  ⟨layerAdd A.g1 B.g1, layerAdd A.g2 B.g2, layerAdd A.g3 B.g3⟩

/-- Reverse-mode gradients contributed by one input row, given the upstream
derivative `g` of the loss with respect to this row's scalar output. -/
def rowGrads (p : Params) (x : Vec) (g : ℚ) : Grads :=
  let pre1 := denseLinear p.w1 x
  let h1 := pre1.map relu
  let pre2 := denseLinear p.w2 h1
  let h2 := pre2.map relu
  let g3 := p.w3.map (fun _ => (scaleVec g h2, g))
  let dh2 := sumVecs (p.w3.map (fun u => scaleVec g u.1)) h2.length
  let dpre2 := List.zipWith (fun d t => d * reluGrad t) dh2 pre2
  let g2 := dpre2.map (fun d => (scaleVec d h1, d))
  let dh1 := sumVecs (List.zipWith (fun u d => scaleVec d u.1) p.w2 dpre2) h1.length
  let dpre1 := List.zipWith (fun d t => d * reluGrad t) dh1 pre1
  let g1 := dpre1.map (fun d => (scaleVec d x, d))
  ⟨g1, g2, g3⟩

/-- Batch gradient of the mean-squared-error loss: each row contributes its
backpropagated gradients weighted by `2·(prediction − label)/n`. -/
def lossGrads (p : Params) (xs : List Vec) (ys : Vec) : Grads :=
  let n : ℚ := (xs.length : ℚ)
  (List.zip xs ys).foldl
    (fun acc xy => Grads.add acc (rowGrads p xy.1 (2 * (rowOut p xy.1 - xy.2) / n)))
    (Grads.zero p)

/-- One gradient-descent update of a layer: each parameter moves by
`−lr · gradient`. -/
def layerStep (lr : ℚ) (A G : Layer) : Layer :=
  List.zipWith (fun u g => (subVec u.1 (scaleVec lr g.1), u.2 - lr * g.2)) A G

/-- The training op built by `tf.contrib.layers.optimize_loss(loss,
global_step, learning_rate, optimizer="SGD")`: running it applies one plain
SGD step `θ ← θ − lr·∇L(θ)` to all three layers and increments the global
step. -/
def sgdStep (p : Params) (lr : ℚ) (xs : List Vec) (ys : Vec) : Params :=
  let G := lossGrads p xs ys
  ⟨layerStep lr p.w1 G.g1, layerStep lr p.w2 G.g2, layerStep lr p.w3 G.g3,
   p.globalStep + 1⟩

/-- The `model_fn` of `abalone.py`.  The three dense layers are built on the
feature batch (any matmul shape mismatch aborts graph construction); the
`[n,1]` output is flattened; the PREDICT branch returns at once with the
predictions under key `"ages"` (plus the serving export output); otherwise
`tf.losses.mean_squared_error` (whose runtime checks labels for None and for
shape compatibility with the predictions) gives the loss, the SGD training op
and the rmse metric are built, and a single spec carrying loss, train op and
metric is returned tagged with `mode` unchanged. -/
def model_fn (p : Params) (features : List Vec) (labels : Option (List ℤ))
    (mode : String) (params : HParams) : Except String EstimatorSpec :=
  if shapesOk p features then
    let predictions := predictionsOf p features
    if mode = ModeKeys.PREDICT then
      .ok ⟨mode, [(("ages"), predictions)], none, none, [],
           [(SIGNATURE_NAME, [(("ages"), predictions)])]⟩
    else
      match labels with
      | none => .error ("labels must not be None.")
      | some ys =>
        if (to_float ys).length = predictions.length then
          let loss := mean_squared_error (to_float ys) predictions
          let train_op := sgdStep p params.learning_rate features (to_float ys)
          .ok ⟨mode, [], some loss, some train_op,
               [(("rmse"), root_mean_squared_error (to_float ys) predictions)], []⟩
        else .error ("labels and predictions have incompatible shapes")
  else .error ("Dimensions must be equal")

/-- The training op carried by a returned spec, `none` on error. -/
def trainOpOf (e : Except String EstimatorSpec) : Option Params :=
  match e with
  | .ok s => s.train_op
  | .error _ => none

/-- A parameter state that is all zeros except the output unit's bias. -/
def biasOnly (c : ℚ) (gs : ℕ) : Params :=
  ⟨List.replicate 10 (zeroVec 7, 0), List.replicate 10 (zeroVec 10, 0),
   [(zeroVec 10, c)], gs⟩

/-- The all-zero well-formed parameter state. -/
def zeroParams : Params := biasOnly 0 0

end Abalone

namespace Abalone

/-- The dot product with a zero vector vanishes, whatever the other factor. -/
theorem dot_zeroVec (n : ℕ) (v : Vec) : dot (zeroVec n) v = 0 := by
  induction n generalizing v with
  | zero => simp [dot, zeroVec]
  | succ k ih =>
    cases v with
    | nil => simp [dot, zeroVec]
    | cons a t =>
      simpa [dot, zeroVec, List.replicate_succ] using ih t

/-- Scaling the zero vector gives the zero vector. -/
theorem scaleVec_zeroVec (c : ℚ) (n : ℕ) : scaleVec c (zeroVec n) = zeroVec n := by
  simp [scaleVec, zeroVec]

/-- Scaling by zero gives a zero vector of the same length. -/
theorem scaleVec_zero (v : Vec) : scaleVec 0 v = zeroVec v.length := by
  simp [scaleVec, zeroVec, List.map_const']

/-- Adding two zero vectors gives the zero vector. -/
theorem addVec_zeroVec (n : ℕ) : addVec (zeroVec n) (zeroVec n) = zeroVec n := by
  simp [addVec, zeroVec]

/-- Subtracting two zero vectors gives the zero vector. -/
theorem subVec_zeroVec (n : ℕ) : subVec (zeroVec n) (zeroVec n) = zeroVec n := by
  simp [subVec, zeroVec]

/-- A sum of zero vectors is the zero vector. -/
theorem sumVecs_replicate_zero (k n : ℕ) :
    sumVecs (List.replicate k (zeroVec n)) n = zeroVec n := by
  induction k with
  | zero => simp [sumVecs]
  | succ j ih =>
    simpa [sumVecs, List.replicate_succ, addVec_zeroVec] using ih

end Abalone

namespace Abalone

/-- A dense layer whose units all have zero weights outputs each unit's bias,
whatever the input row. -/
theorem denseLinear_replicate (k n : ℕ) (b : ℚ) (x : Vec) :
    denseLinear (List.replicate k (zeroVec n, b)) x = List.replicate k b := by
  simp [denseLinear, List.map_replicate, dot_zeroVec]

/-- With all-zero first-layer weights and biases, the first hidden
representation is zero for every input row. -/
theorem hidden1_biasOnly (c : ℚ) (gs : ℕ) (x : Vec) :
    hidden1 (biasOnly c gs) x = zeroVec 10 := by
  show ((denseLinear (List.replicate 10 (zeroVec 7, 0)) x).map relu) = zeroVec 10
  rw [denseLinear_replicate]
  simp [relu, zeroVec, List.map_replicate]

/-- With all-zero weights and biases in the first two layers, the second
hidden representation is zero for every input row. -/
theorem hidden2_biasOnly (c : ℚ) (gs : ℕ) (x : Vec) :
    hidden2 (biasOnly c gs) x = zeroVec 10 := by
  show ((denseLinear (List.replicate 10 (zeroVec 10, 0)) (hidden1 (biasOnly c gs) x)).map relu) = zeroVec 10
  rw [denseLinear_replicate]
  simp [relu, zeroVec, List.map_replicate]

/-- In the bias-only state the single output unit emits exactly its bias. -/
theorem outputRow_biasOnly (c : ℚ) (gs : ℕ) (x : Vec) :
    outputRow (biasOnly c gs) x = [c] := by
  show denseLinear [(zeroVec 10, c)] (hidden2 (biasOnly c gs) x) = [c]
  simp [denseLinear, dot_zeroVec]

/-- In the bias-only state the scalar output of every row is the bias. -/
theorem rowOut_biasOnly (c : ℚ) (gs : ℕ) (x : Vec) :
    rowOut (biasOnly c gs) x = c := by
  simp [rowOut, outputRow_biasOnly]

/-- In the bias-only state the prediction vector is constantly the bias. -/
theorem predictionsOf_biasOnly (c : ℚ) (gs : ℕ) (xs : List Vec) :
    predictionsOf (biasOnly c gs) xs = xs.map (fun _ => c) := by
  induction xs with
  | nil => simp [predictionsOf, output_layer, reshapeFlat]
  | cons h t ih =>
    simpa [predictionsOf, output_layer, reshapeFlat, outputRow_biasOnly] using ih

end Abalone

namespace Abalone

/-- relu of zero is zero. -/
theorem relu_zero : relu 0 = 0 := by simp [relu]

/-- The zero vector unfolded. -/
theorem zeroVec_eq (n : ℕ) : zeroVec n = List.replicate n 0 := rfl

/-- Lemma `denseLinear_replicate` restated in `List.replicate` normal form. -/
theorem denseLinear_replicate0 (k n : ℕ) (b : ℚ) (x : Vec) :
    denseLinear (List.replicate k (List.replicate n 0, b)) x = List.replicate k b := by
  simpa [zeroVec_eq] using denseLinear_replicate k n b x

/-- Scaling a zero vector in replicate form. -/
theorem scaleVec_replicate (c : ℚ) (n : ℕ) :
    scaleVec c (List.replicate n 0) = List.replicate n 0 := by
  simp [scaleVec, List.map_replicate]

/-- Adding zero vectors in replicate form. -/
theorem addVec_replicate (n : ℕ) :
    addVec (List.replicate n 0) (List.replicate n 0) = List.replicate n 0 := by
  simpa [zeroVec_eq] using addVec_zeroVec n

/-- Summing zero vectors in replicate form. -/
theorem sumVecs_replicate (k n : ℕ) :
    sumVecs (List.replicate k (List.replicate n 0)) n = List.replicate n 0 := by
  simpa [zeroVec_eq] using sumVecs_replicate_zero k n

/-- The relu derivative at zero pre-activation is zero (TensorFlow ReluGrad). -/
theorem reluGrad_zero : reluGrad 0 = 0 := by simp [reluGrad]

/-- Summing a single zero vector gives the zero vector. -/
theorem sumVecs_single_zero (n : ℕ) : sumVecs [List.replicate n 0] n = List.replicate n 0 := by
  show addVec (zeroVec n) (List.replicate n 0) = List.replicate n 0
  simpa [zeroVec_eq] using addVec_replicate n

/-- Backpropagation through the bias-only state: every weight gradient
vanishes (the hidden activations and the relu derivatives are all zero), and
the single output unit's bias receives exactly the upstream derivative. -/
theorem rowGrads_biasOnly (c : ℚ) (gs : ℕ) (x : Vec) (g : ℚ) (hx : x.length = 7) :
    rowGrads (biasOnly c gs) x g =
      ⟨List.replicate 10 (zeroVec 7, 0), List.replicate 10 (zeroVec 10, 0), [(zeroVec 10, g)]⟩ := by
  simp only [rowGrads, biasOnly, zeroVec_eq]
  simp only [denseLinear_replicate0, List.map_replicate, relu_zero]
  simp only [List.map_cons, List.map_nil, scaleVec_replicate, List.length_replicate,
    sumVecs_single_zero, List.zipWith_replicate, min_self, reluGrad_zero, mul_zero, zero_mul,
    sumVecs_replicate, List.map_replicate, scaleVec_zero, zeroVec_eq, hx]

end Abalone
namespace Abalone

theorem subVec_replicate (n : ℕ) :
    subVec (List.replicate n 0) (List.replicate n 0) = List.replicate n 0 := by
  simpa [zeroVec_eq] using subVec_zeroVec n

theorem grads_add_shape (s g : ℚ) :
    Grads.add
      ⟨List.replicate 10 (zeroVec 7, 0), List.replicate 10 (zeroVec 10, 0), [(zeroVec 10, s)]⟩
      ⟨List.replicate 10 (zeroVec 7, 0), List.replicate 10 (zeroVec 10, 0), [(zeroVec 10, g)]⟩
    = ⟨List.replicate 10 (zeroVec 7, 0), List.replicate 10 (zeroVec 10, 0),
       [(zeroVec 10, s + g)]⟩ := by
  simp only [Grads.add, layerAdd, zeroVec_eq, List.zipWith_replicate, min_self,
    addVec_replicate, add_zero, List.zipWith_cons_cons, List.zipWith_nil_right]

theorem lossGrads_fold_biasOnly (c : ℚ) (gs : ℕ) (n : ℚ) :
    ∀ (pairs : List (Vec × ℚ)) (s : ℚ), (∀ xy ∈ pairs, xy.1.length = 7) →
    pairs.foldl
      (fun acc xy =>
        Grads.add acc (rowGrads (biasOnly c gs) xy.1 (2 * (rowOut (biasOnly c gs) xy.1 - xy.2) / n)))
      ⟨List.replicate 10 (zeroVec 7, 0), List.replicate 10 (zeroVec 10, 0), [(zeroVec 10, s)]⟩
    = ⟨List.replicate 10 (zeroVec 7, 0), List.replicate 10 (zeroVec 10, 0),
       [(zeroVec 10, s + ((pairs.map (fun xy => 2 * (c - xy.2) / n)).sum))]⟩ := by
  intro pairs
  induction pairs with
  | nil => intro s h; simp
  | cons a t ih =>
    intro s h
    have ha : a.1.length = 7 := h a (by simp)
    have ht : ∀ xy ∈ t, xy.1.length = 7 := fun xy hxy => h xy (by simp [hxy])
    rw [List.foldl_cons, rowOut_biasOnly, rowGrads_biasOnly _ _ _ _ ha, grads_add_shape,
      ih _ ht, List.map_cons, List.sum_cons]
    simp only [add_assoc]

theorem zip_map_sum_c (c n : ℚ) :
    ∀ (xs : List Vec) (ys : Vec), ys.length = xs.length →
    ((List.zip xs ys).map (fun xy => 2 * (c - xy.2) / n)).sum
      = (ys.map (fun y => 2 * (c - y) / n)).sum := by
  intro xs
  induction xs with
  | nil => intro ys h; simp [List.length_eq_zero.mp h]
  | cons a t ih =>
    intro ys h
    cases ys with
    | nil => simp at h
    | cons y ty =>
      simp only [List.zip_cons_cons, List.map_cons, List.sum_cons]
      rw [ih ty (by simpa using h)]

theorem sum_affine (c n : ℚ) (ys : Vec) :
    (ys.map (fun y => 2 * (c - y) / n)).sum = 2 * (c * ys.length - ys.sum) / n := by
  induction ys with
  | nil => simp
  | cons y t ih =>
    simp only [List.map_cons, List.sum_cons, ih, List.length_cons, List.sum_cons]
    rw [div_add_div_same]
    congr 1
    push_cast
    ring

theorem lossGrads_biasOnly (c : ℚ) (gs : ℕ) (xs : List Vec) (ys : Vec)
    (hx : ∀ x ∈ xs, x.length = 7) (hlen : ys.length = xs.length) :
    lossGrads (biasOnly c gs) xs ys =
      ⟨List.replicate 10 (zeroVec 7, 0), List.replicate 10 (zeroVec 10, 0),
       [(zeroVec 10, 2 * (c * xs.length - ys.sum) / xs.length)]⟩ := by
  unfold lossGrads
  have h0 : Grads.zero (biasOnly c gs)
      = ⟨List.replicate 10 (zeroVec 7, 0), List.replicate 10 (zeroVec 10, 0),
         [(zeroVec 10, 0)]⟩ := by
    simp only [Grads.zero, biasOnly, zeroLayer, List.map_replicate, List.map_cons,
      List.map_nil, zeroVec_eq, List.length_replicate]
  rw [h0, lossGrads_fold_biasOnly c gs _ _ 0
    (fun xy hxy => hx xy.1 (List.of_mem_zip hxy).1)]
  rw [zip_map_sum_c c _ xs ys hlen, sum_affine, hlen, zero_add]

theorem sgdStep_biasOnly (c lr : ℚ) (gs : ℕ) (xs : List Vec) (ys : Vec)
    (hx : ∀ x ∈ xs, x.length = 7) (hlen : ys.length = xs.length) :
    sgdStep (biasOnly c gs) lr xs ys
      = biasOnly (c - lr * (2 * (c * xs.length - ys.sum) / xs.length)) (gs + 1) := by
  unfold sgdStep
  rw [lossGrads_biasOnly c gs xs ys hx hlen]
  simp only [layerStep, biasOnly, zeroVec_eq, List.zipWith_replicate, min_self,
    scaleVec_replicate, subVec_replicate, mul_zero, sub_zero, List.zipWith_cons_cons,
    List.zipWith_nil_right]

end Abalone
namespace Abalone

theorem zipWith_map_const_sq (c : ℚ) :
    ∀ (ys : Vec) (xs : List Vec), ys.length = xs.length →
    List.zipWith (fun a b => (a - b) ^ 2) ys (xs.map (fun _ => c))
      = ys.map (fun y => (y - c) ^ 2) := by
  intro ys
  induction ys with
  | nil => intro xs h; simp
  | cons y t ih =>
    intro xs h
    cases xs with
    | nil => simp at h
    | cons a ta =>
      simp only [List.map_cons, List.zipWith_cons_cons]
      rw [ih ta (by simpa using h)]

theorem meanSq_const (c : ℚ) (ys : Vec) (xs : List Vec) (h : ys.length = xs.length) :
    meanSq ys (xs.map (fun _ => c)) = (ys.map (fun y => (y - c) ^ 2)).sum / (ys.length : ℚ) := by
  unfold meanSq
  rw [zipWith_map_const_sq c ys xs h]

theorem sum_sq_expand (c : ℚ) (ys : Vec) :
    (ys.map (fun y => (y - c) ^ 2)).sum
      = (ys.map (fun y => y ^ 2)).sum - 2 * c * ys.sum + (ys.length : ℚ) * c ^ 2 := by
  induction ys with
  | nil => simp
  | cons y t ih =>
    simp only [List.map_cons, List.sum_cons, ih, List.length_cons]
    push_cast
    ring

theorem sum_zipWith_sq_nonneg : ∀ (a b : Vec),
    0 ≤ (List.zipWith (fun x y => (x - y) ^ 2) a b).sum := by
  intro a
  induction a with
  | nil => intro b; simp
  | cons x t ih =>
    intro b
    cases b with
    | nil => simp
    | cons y tb =>
      simp only [List.zipWith_cons_cons, List.sum_cons]
      have := ih tb
      positivity

theorem meanSq_nonneg (ys ps : Vec) : 0 ≤ meanSq ys ps := by
  unfold meanSq
  exact div_nonneg (sum_zipWith_sq_nonneg ys ps) (Nat.cast_nonneg _)

theorem meanSq_self (v : Vec) : meanSq v v = 0 := by
  unfold meanSq
  have h : ∀ w : Vec, (List.zipWith (fun x y => (x - y) ^ 2) w w).sum = 0 := by
    intro w
    induction w with
    | nil => simp
    | cons x t ih => simp [ih]
  rw [h, zero_div]

end Abalone
namespace Abalone

theorem shapesOk_of_wf (p : Params) (xs : List Vec)
    (hw : p.wf) (hx : ∀ x ∈ xs, x.length = 7) : shapesOk p xs = true := by
  obtain ⟨h1len, h1, h2len, h2, h3len, h3⟩ := hw
  unfold shapesOk layerShapesOk
  simp only [Bool.and_eq_true, List.all_eq_true, beq_iff_eq]
  refine ⟨⟨fun x hxl => fun u hu => ?_, fun u hu => ?_⟩, fun u hu => ?_⟩
  · rw [h1 u hu, hx x hxl]
  · rw [h2 u hu, h1len]
  · rw [h3 u hu, h2len]

theorem length_outputRow (p : Params) (x : Vec) :
    (outputRow p x).length = p.w3.length := by
  simp [outputRow, denseLinear]

theorem predictionsOf_length (p : Params) (xs : List Vec) (h3 : p.w3.length = 1) :
    (predictionsOf p xs).length = xs.length := by
  unfold predictionsOf reshapeFlat output_layer
  rw [List.length_flatten]
  have h : List.map List.length (List.map (outputRow p) xs) = List.map (fun _ => (1 : ℕ)) xs := by
    rw [List.map_map]
    refine List.map_congr_left (fun a ha => ?_)
    simp [Function.comp, length_outputRow, h3]
  rw [h, List.map_const']
  simp [List.sum_replicate]

end Abalone
namespace Abalone

theorem to_float_length (ys : List ℤ) : (to_float ys).length = ys.length := by
  unfold to_float
  rw [List.length_map]

theorem model_fn_predict_eq (p : Params) (xs : List Vec) (labels : Option (List ℤ))
    (hp : HParams) (hs : shapesOk p xs = true) :
    model_fn p xs labels ModeKeys.PREDICT hp
      = .ok ⟨ModeKeys.PREDICT, [(("ages"), predictionsOf p xs)], none, none, [],
             [(SIGNATURE_NAME, [(("ages"), predictionsOf p xs)])]⟩ := by
  unfold model_fn
  simp [hs]

theorem model_fn_trainEval_eq (p : Params) (xs : List Vec) (ys : List ℤ)
    (hp : HParams) (mode : String) (hs : shapesOk p xs = true)
    (hmode : ¬ mode = ModeKeys.PREDICT) (hlen : ys.length = (predictionsOf p xs).length) :
    model_fn p xs (some ys) mode hp
      = .ok ⟨mode, [], some (mean_squared_error (to_float ys) (predictionsOf p xs)),
             some (sgdStep p hp.learning_rate xs (to_float ys)),
             [(("rmse"), root_mean_squared_error (to_float ys) (predictionsOf p xs))], []⟩ := by
  unfold model_fn
  simp [hs, hmode, to_float_length, hlen]

end Abalone
namespace Abalone

/-- C1: with mode = PREDICT the returned spec is tagged PREDICT, maps the key
"ages" to the prediction vector (one float per input row), and carries no
loss and no training op: the branch returns before the later steps run. -/
theorem c1_predict_terminal (p : Params) (xs : List Vec) (labels : Option (List ℤ))
    (hp : HParams) (hw : p.wf) (hx : ∀ x ∈ xs, x.length = 7) :
    model_fn p xs labels ModeKeys.PREDICT hp
      = .ok ⟨ModeKeys.PREDICT, [(("ages"), predictionsOf p xs)], none, none, [],
             [(SIGNATURE_NAME, [(("ages"), predictionsOf p xs)])]⟩
    ∧ (predictionsOf p xs).length = xs.length := by
  refine ⟨model_fn_predict_eq p xs labels hp (shapesOk_of_wf p xs hw hx), ?_⟩
  exact predictionsOf_length p xs hw.2.2.2.2.1

theorem c1_witness :
    zeroParams.wf ∧ (∀ x ∈ [zeroVec 7], x.length = 7) ∧
    (model_fn zeroParams [zeroVec 7] none ModeKeys.PREDICT ⟨LEARNING_RATE⟩
      = .ok ⟨ModeKeys.PREDICT, [(("ages"), predictionsOf zeroParams [zeroVec 7])], none, none, [],
             [(SIGNATURE_NAME, [(("ages"), predictionsOf zeroParams [zeroVec 7])])]⟩
     ∧ (predictionsOf zeroParams [zeroVec 7]).length = [zeroVec 7].length) :=
  ⟨by decide, by decide,
   c1_predict_terminal zeroParams [zeroVec 7] none ⟨LEARNING_RATE⟩ (by decide) (by decide)⟩

end Abalone
namespace Abalone

/-- C2: with mode = EVAL and labels matching the batch, the metric mapping is
exactly the singleton rmse entry, computed from the float-cast labels; the
metric's stored mean square equals the returned loss, whose real square root
the metric realizes (squaring it recovers the loss), and the loss is
nonnegative. -/
theorem c2_eval_rmse (p : Params) (xs : List Vec) (ys : List ℤ) (hp : HParams)
    (hw : p.wf) (hx : ∀ x ∈ xs, x.length = 7) (hlen : ys.length = xs.length) :
    ∃ L : ℚ,
      model_fn p xs (some ys) ModeKeys.EVAL hp
        = .ok ⟨ModeKeys.EVAL, [], some L,
               some (sgdStep p hp.learning_rate xs (to_float ys)),
               [(("rmse"), root_mean_squared_error (to_float ys) (predictionsOf p xs))], []⟩
      ∧ L = mean_squared_error (to_float ys) (predictionsOf p xs)
      ∧ 0 ≤ L
      ∧ (root_mean_squared_error (to_float ys) (predictionsOf p xs)).msq = L
      ∧ Real.sqrt ((L : ℝ)) ^ 2 = (L : ℝ) := by
  have hs : shapesOk p xs = true := shapesOk_of_wf p xs hw hx
  have hlen2 : ys.length = (predictionsOf p xs).length := by
    rw [predictionsOf_length p xs hw.2.2.2.2.1, hlen]
  have hnn : 0 ≤ mean_squared_error (to_float ys) (predictionsOf p xs) :=
    meanSq_nonneg _ _
  refine ⟨mean_squared_error (to_float ys) (predictionsOf p xs),
    model_fn_trainEval_eq p xs ys hp ModeKeys.EVAL hs (by decide) hlen2, rfl, hnn, rfl, ?_⟩
  exact Real.sq_sqrt (by exact_mod_cast hnn)

theorem c2_witness :
    zeroParams.wf ∧ (∀ x ∈ [zeroVec 7], x.length = 7) ∧ ([(9 : ℤ)].length = [zeroVec 7].length) ∧
    (∃ L : ℚ,
      model_fn zeroParams [zeroVec 7] (some [9]) ModeKeys.EVAL ⟨LEARNING_RATE⟩
        = .ok ⟨ModeKeys.EVAL, [], some L,
               some (sgdStep zeroParams LEARNING_RATE [zeroVec 7] (to_float [9])),
               [(("rmse"), root_mean_squared_error (to_float [9]) (predictionsOf zeroParams [zeroVec 7]))], []⟩
      ∧ L = mean_squared_error (to_float [9]) (predictionsOf zeroParams [zeroVec 7])
      ∧ 0 ≤ L
      ∧ (root_mean_squared_error (to_float [9]) (predictionsOf zeroParams [zeroVec 7])).msq = L
      ∧ Real.sqrt ((L : ℝ)) ^ 2 = (L : ℝ)) :=
  ⟨by decide, by decide, by decide,
   c2_eval_rmse zeroParams [zeroVec 7] [9] ⟨LEARNING_RATE⟩ (by decide) (by decide) (by decide)⟩

end Abalone
namespace Abalone

/-- C3: in TRAIN and EVAL mode the returned loss is the mean over rows of the
squared label/prediction differences (labels cast to float); when the cast
labels coincide with the predictions the loss is exactly 0. -/
theorem c3_loss_is_mse (p : Params) (xs : List Vec) (ys : List ℤ) (hp : HParams)
    (mode : String) (hmode : mode = ModeKeys.TRAIN ∨ mode = ModeKeys.EVAL)
    (hw : p.wf) (hx : ∀ x ∈ xs, x.length = 7) (hlen : ys.length = xs.length) :
    ∃ spec, model_fn p xs (some ys) mode hp = .ok spec
      ∧ spec.loss = some
          ((List.zipWith (fun a b => (a - b) ^ 2) (to_float ys) (predictionsOf p xs)).sum
            / ((to_float ys).length : ℚ))
      ∧ (to_float ys = predictionsOf p xs → spec.loss = some 0) := by
  have hs : shapesOk p xs = true := shapesOk_of_wf p xs hw hx
  have hlen2 : ys.length = (predictionsOf p xs).length := by
    rw [predictionsOf_length p xs hw.2.2.2.2.1, hlen]
  have hne : ¬ mode = ModeKeys.PREDICT := by
    rcases hmode with h | h <;> rw [h] <;> decide
  refine ⟨_, model_fn_trainEval_eq p xs ys hp mode hs hne hlen2, rfl, fun heq => ?_⟩
  show some (mean_squared_error (to_float ys) (predictionsOf p xs)) = some 0
  rw [heq]
  exact congrArg some (meanSq_self _)

theorem c3_witness :
    (ModeKeys.TRAIN = ModeKeys.TRAIN ∨ ModeKeys.TRAIN = ModeKeys.EVAL) ∧
    zeroParams.wf ∧ (∀ x ∈ [zeroVec 7], x.length = 7) ∧ ([(0 : ℤ)].length = [zeroVec 7].length) ∧
    (∃ spec, model_fn zeroParams [zeroVec 7] (some [0]) ModeKeys.TRAIN ⟨LEARNING_RATE⟩ = .ok spec
      ∧ spec.loss = some
          ((List.zipWith (fun a b => (a - b) ^ 2) (to_float [0]) (predictionsOf zeroParams [zeroVec 7])).sum
            / ((to_float [0]).length : ℚ))
      ∧ (to_float [0] = predictionsOf zeroParams [zeroVec 7] → spec.loss = some 0)) :=
  ⟨Or.inl rfl, by decide, by decide, by decide,
   c3_loss_is_mse zeroParams [zeroVec 7] [0] ⟨LEARNING_RATE⟩ ModeKeys.TRAIN (Or.inl rfl)
     (by decide) (by decide) (by decide)⟩

/-- C4: for a well-formed parameter state and a nonempty batch of 7-feature
rows, the `[n,1]` output of the final dense layer has one singleton row per
input row, and flattening it yields a prediction vector whose length equals
the number of rows; the PREDICT result carries exactly that vector. -/
theorem c4_prediction_vector_length (p : Params) (xs : List Vec) (hp : HParams)
    (hw : p.wf) (_hne : xs ≠ []) (hx : ∀ x ∈ xs, x.length = 7) :
    (∀ r ∈ output_layer p xs, r.length = 1)
    ∧ predictionsOf p xs = reshapeFlat (output_layer p xs)
    ∧ (predictionsOf p xs).length = xs.length
    ∧ ∃ spec, model_fn p xs none ModeKeys.PREDICT hp = .ok spec
        ∧ spec.predictions = [(("ages"), predictionsOf p xs)] := by
  refine ⟨fun r hr => ?_, rfl, predictionsOf_length p xs hw.2.2.2.2.1,
    ⟨_, model_fn_predict_eq p xs none hp (shapesOk_of_wf p xs hw hx), rfl⟩⟩
  obtain ⟨x, hxmem, hxeq⟩ := List.mem_map.mp hr
  rw [← hxeq, length_outputRow, hw.2.2.2.2.1]

theorem c4_witness :
    zeroParams.wf ∧ ([zeroVec 7] ≠ ([] : List Vec)) ∧ (∀ x ∈ [zeroVec 7], x.length = 7) ∧
    ((∀ r ∈ output_layer zeroParams [zeroVec 7], r.length = 1)
    ∧ predictionsOf zeroParams [zeroVec 7] = reshapeFlat (output_layer zeroParams [zeroVec 7])
    ∧ (predictionsOf zeroParams [zeroVec 7]).length = [zeroVec 7].length
    ∧ ∃ spec, model_fn zeroParams [zeroVec 7] none ModeKeys.PREDICT ⟨LEARNING_RATE⟩ = .ok spec
        ∧ spec.predictions = [(("ages"), predictionsOf zeroParams [zeroVec 7])]) :=
  ⟨by decide, by decide, by decide,
   c4_prediction_vector_length zeroParams [zeroVec 7] ⟨LEARNING_RATE⟩ (by decide) (by decide) (by decide)⟩

end Abalone
namespace Abalone

/-- C6: a PREDICT invocation is a pure read: its result does not depend on
the labels or the hyperparameters, so for a fixed parameter state identical
feature batches give identical results, and the returned spec carries no
training op, the only channel through which the parameter state (weights,
biases, global step) could change. -/
theorem c6_predict_deterministic_pure (p : Params) (xs : List Vec)
    (l l2 : Option (List ℤ)) (hp hp2 : HParams) :
    model_fn p xs l ModeKeys.PREDICT hp = model_fn p xs l2 ModeKeys.PREDICT hp2
    ∧ trainOpOf (model_fn p xs l ModeKeys.PREDICT hp) = none := by
  unfold model_fn trainOpOf
  by_cases hs : shapesOk p xs <;> simp [hs]

/-- C9: on the single all-zero feature row with all-zero weights and biases
the prediction is exactly 0 (zero is preserved through both ReLU hidden
layers and the linear output layer). -/
theorem c9_zero_network_zero_output :
    predictionsOf zeroParams [zeroVec 7] = [0]
    ∧ model_fn zeroParams [zeroVec 7] none ModeKeys.PREDICT ⟨LEARNING_RATE⟩
      = .ok ⟨ModeKeys.PREDICT, [(("ages"), [0])], none, none, [],
             [(SIGNATURE_NAME, [(("ages"), [0])])]⟩ := by
  have h : predictionsOf zeroParams [zeroVec 7] = [0] := by
    show predictionsOf (biasOnly 0 0) [zeroVec 7] = [0]
    rw [predictionsOf_biasOnly]
    rfl
  refine ⟨h, ?_⟩
  rw [model_fn_predict_eq zeroParams [zeroVec 7] none ⟨LEARNING_RATE⟩ (by decide), h]

end Abalone
namespace Abalone

/-- C7: with mode = TRAIN the returned spec is tagged TRAIN and carries the
MSE loss together with the training op; the op is one plain gradient-descent
update of all three weight/bias layers with learning rate
`params["learning_rate"]` (each layer moves by minus the learning rate times
its loss gradient), and it increments the global step, which is therefore
strictly monotone across TRAIN invocations. -/
theorem c7_train_updates_and_step (p : Params) (xs : List Vec) (ys : List ℤ)
    (hp : HParams) (hw : p.wf) (hx : ∀ x ∈ xs, x.length = 7)
    (hlen : ys.length = xs.length) :
    ∃ p2, model_fn p xs (some ys) ModeKeys.TRAIN hp
        = .ok ⟨ModeKeys.TRAIN, [],
               some (mean_squared_error (to_float ys) (predictionsOf p xs)), some p2,
               [(("rmse"), root_mean_squared_error (to_float ys) (predictionsOf p xs))], []⟩
      ∧ p2 = sgdStep p hp.learning_rate xs (to_float ys)
      ∧ p2.w1 = layerStep hp.learning_rate p.w1 (lossGrads p xs (to_float ys)).g1
      ∧ p2.w2 = layerStep hp.learning_rate p.w2 (lossGrads p xs (to_float ys)).g2
      ∧ p2.w3 = layerStep hp.learning_rate p.w3 (lossGrads p xs (to_float ys)).g3
      ∧ p2.globalStep = p.globalStep + 1
      ∧ p.globalStep < p2.globalStep := by
  have hs : shapesOk p xs = true := shapesOk_of_wf p xs hw hx
  have hlen2 : ys.length = (predictionsOf p xs).length := by
    rw [predictionsOf_length p xs hw.2.2.2.2.1, hlen]
  exact ⟨sgdStep p hp.learning_rate xs (to_float ys),
    model_fn_trainEval_eq p xs ys hp ModeKeys.TRAIN hs (by decide) hlen2,
    rfl, rfl, rfl, rfl, rfl, Nat.lt_succ_self _⟩

theorem c7_witness :
    zeroParams.wf ∧ (∀ x ∈ [zeroVec 7], x.length = 7) ∧ ([(9 : ℤ)].length = [zeroVec 7].length) ∧
    (∃ p2, model_fn zeroParams [zeroVec 7] (some [9]) ModeKeys.TRAIN ⟨LEARNING_RATE⟩
        = .ok ⟨ModeKeys.TRAIN, [],
               some (mean_squared_error (to_float [9]) (predictionsOf zeroParams [zeroVec 7])), some p2,
               [(("rmse"), root_mean_squared_error (to_float [9]) (predictionsOf zeroParams [zeroVec 7]))], []⟩
      ∧ p2 = sgdStep zeroParams LEARNING_RATE [zeroVec 7] (to_float [9])
      ∧ p2.w1 = layerStep LEARNING_RATE zeroParams.w1 (lossGrads zeroParams [zeroVec 7] (to_float [9])).g1
      ∧ p2.w2 = layerStep LEARNING_RATE zeroParams.w2 (lossGrads zeroParams [zeroVec 7] (to_float [9])).g2
      ∧ p2.w3 = layerStep LEARNING_RATE zeroParams.w3 (lossGrads zeroParams [zeroVec 7] (to_float [9])).g3
      ∧ p2.globalStep = zeroParams.globalStep + 1
      ∧ zeroParams.globalStep < p2.globalStep) :=
  ⟨by decide, by decide, by decide,
   c7_train_updates_and_step zeroParams [zeroVec 7] [9] ⟨LEARNING_RATE⟩
     (by decide) (by decide) (by decide)⟩

/-- C10: every invocation with mode TRAIN or EVAL builds one and the same
kind of result carrying all three of the loss, the training op and the
singleton rmse metric (labels cast to 32-bit float): the TRAIN and EVAL specs
agree on everything except the mode tag, so an EVAL invocation also
constructs the training step and a TRAIN invocation also carries the rmse
metric. -/
theorem c10_train_eval_share_spec (p : Params) (xs : List Vec) (ys : List ℤ)
    (hp : HParams) (hw : p.wf) (hx : ∀ x ∈ xs, x.length = 7)
    (hlen : ys.length = xs.length) :
    ∃ L t m,
      model_fn p xs (some ys) ModeKeys.TRAIN hp
        = .ok ⟨ModeKeys.TRAIN, [], some L, some t, [(("rmse"), m)], []⟩
      ∧ model_fn p xs (some ys) ModeKeys.EVAL hp
        = .ok ⟨ModeKeys.EVAL, [], some L, some t, [(("rmse"), m)], []⟩
      ∧ L = mean_squared_error (to_float ys) (predictionsOf p xs)
      ∧ t = sgdStep p hp.learning_rate xs (to_float ys)
      ∧ m = root_mean_squared_error (to_float ys) (predictionsOf p xs) := by
  have hs : shapesOk p xs = true := shapesOk_of_wf p xs hw hx
  have hlen2 : ys.length = (predictionsOf p xs).length := by
    rw [predictionsOf_length p xs hw.2.2.2.2.1, hlen]
  exact ⟨_, _, _,
    model_fn_trainEval_eq p xs ys hp ModeKeys.TRAIN hs (by decide) hlen2,
    model_fn_trainEval_eq p xs ys hp ModeKeys.EVAL hs (by decide) hlen2,
    rfl, rfl, rfl⟩

theorem c10_witness :
    zeroParams.wf ∧ (∀ x ∈ [zeroVec 7], x.length = 7) ∧ ([(9 : ℤ)].length = [zeroVec 7].length) ∧
    (∃ L t m,
      model_fn zeroParams [zeroVec 7] (some [9]) ModeKeys.TRAIN ⟨LEARNING_RATE⟩
        = .ok ⟨ModeKeys.TRAIN, [], some L, some t, [(("rmse"), m)], []⟩
      ∧ model_fn zeroParams [zeroVec 7] (some [9]) ModeKeys.EVAL ⟨LEARNING_RATE⟩
        = .ok ⟨ModeKeys.EVAL, [], some L, some t, [(("rmse"), m)], []⟩
      ∧ L = mean_squared_error (to_float [9]) (predictionsOf zeroParams [zeroVec 7])
      ∧ t = sgdStep zeroParams LEARNING_RATE [zeroVec 7] (to_float [9])
      ∧ m = root_mean_squared_error (to_float [9]) (predictionsOf zeroParams [zeroVec 7])) :=
  ⟨by decide, by decide, by decide,
   c10_train_eval_share_spec zeroParams [zeroVec 7] [9] ⟨LEARNING_RATE⟩
     (by decide) (by decide) (by decide)⟩

end Abalone
namespace Abalone

/-- C5 (amended): a malformed feature row (length other than 7, against a
well-formed parameter state) aborts in the first dense layer's shape check,
and missing labels with mode TRAIN or EVAL abort in the loss's labels check,
in both cases surfacing an error instead of a result; an out-of-enumeration
mode value, however, is not rejected (see the counterexample). -/
theorem c5_contract_violations (p : Params) (xs : List Vec) (labels : Option (List ℤ))
    (mode : String) (hp : HParams)
    (h : ((∃ x ∈ xs, x.length ≠ 7) ∧ p.wf) ∨ (labels = none ∧ mode ≠ ModeKeys.PREDICT)) :
    ∃ msg, model_fn p xs labels mode hp = .error msg := by
  rcases h with ⟨⟨x, hxm, hx7⟩, hw⟩ | ⟨hl, hm⟩
  · have hs : ¬ (shapesOk p xs = true) := by
      intro hAll
      unfold shapesOk layerShapesOk at hAll
      simp only [Bool.and_eq_true, List.all_eq_true, beq_iff_eq] at hAll
      obtain ⟨⟨hrow, _⟩, _⟩ := hAll
      obtain ⟨u, hu⟩ := List.exists_mem_of_length_pos (by rw [hw.1]; norm_num : 0 < p.w1.length)
      have h7 := hrow x hxm u hu
      rw [hw.2.1 u hu] at h7
      exact hx7 h7.symm
    have he : model_fn p xs labels mode hp = .error ("Dimensions must be equal") := by
      unfold model_fn
      rw [if_neg hs]
    exact ⟨_, he⟩
  · by_cases hs : shapesOk p xs = true
    · subst hl
      have he : model_fn p xs none mode hp = .error ("labels must not be None.") := by
        unfold model_fn
        rw [if_pos hs, if_neg hm]
      exact ⟨_, he⟩
    · have he : model_fn p xs labels mode hp = .error ("Dimensions must be equal") := by
        unfold model_fn
        rw [if_neg hs]
      exact ⟨_, he⟩

theorem c5_witness :
    (((∃ x ∈ [zeroVec 3], x.length ≠ 7) ∧ zeroParams.wf) ∨
      ((some [(1 : ℤ)] : Option (List ℤ)) = none ∧ ModeKeys.TRAIN ≠ ModeKeys.PREDICT)) ∧
    (∃ msg, model_fn zeroParams [zeroVec 3] (some [1]) ModeKeys.TRAIN ⟨LEARNING_RATE⟩
      = .error msg) :=
  ⟨Or.inl ⟨by decide, by decide⟩,
   c5_contract_violations zeroParams [zeroVec 3] (some [1]) ModeKeys.TRAIN ⟨LEARNING_RATE⟩
     (Or.inl ⟨by decide, by decide⟩)⟩

end Abalone
namespace Abalone

/-- C5 (counterexample): a mode value outside the three-valued enumeration
("foo") with well-formed features and labels does not fail: the function
proceeds through loss, training op and metric construction and returns a
result tagged with the invalid mode. -/
theorem c5_invalid_mode_not_rejected :
    model_fn zeroParams [zeroVec 7] (some [10]) ("foo") ⟨LEARNING_RATE⟩
      = .ok ⟨("foo"), [], some 100, some (biasOnly (1 / 50) 1),
             [(("rmse"), ⟨100⟩)], []⟩ := by
  have hpred : predictionsOf zeroParams [zeroVec 7] = [0] := by
    show predictionsOf (biasOnly 0 0) [zeroVec 7] = [0]
    rw [predictionsOf_biasOnly]
    rfl
  have hlen2 : ([(10 : ℤ)]).length = (predictionsOf zeroParams [zeroVec 7]).length := by
    rw [hpred]
    rfl
  have hmsq : meanSq (to_float [10]) (predictionsOf zeroParams [zeroVec 7]) = 100 := by
    rw [hpred]
    unfold meanSq to_float
    norm_num
  have hstep : sgdStep zeroParams LEARNING_RATE [zeroVec 7] (to_float [10])
      = biasOnly (1 / 50) 1 := by
    show sgdStep (biasOnly 0 0) LEARNING_RATE [zeroVec 7] (to_float [10]) = biasOnly (1 / 50) 1
    rw [sgdStep_biasOnly 0 LEARNING_RATE 0 [zeroVec 7] (to_float [10]) (by decide)
      (by rw [to_float_length]
          rfl)]
    have hsum : (to_float [10]).sum = 10 := by
      unfold to_float
      norm_num
    rw [hsum]
    norm_num [LEARNING_RATE]
  rw [model_fn_trainEval_eq zeroParams [zeroVec 7] [10] ⟨LEARNING_RATE⟩ ("foo")
    (by decide) (by decide) hlen2]
  rw [show mean_squared_error (to_float [10]) (predictionsOf zeroParams [zeroVec 7]) = 100 from hmsq]
  rw [show root_mean_squared_error (to_float [10]) (predictionsOf zeroParams [zeroVec 7])
      = (⟨100⟩ : MetricOp) from congrArg MetricOp.mk hmsq]
  rw [hstep]

end Abalone
namespace Abalone

/-- C8 (amended): on the all-zero-weights parameter family (output bias `c`),
a single training step moves only the output bias, and for any batch with
labels present, any learning rate strictly between 0 and 1, and a nonzero
bias gradient (bias differing from the label mean), recomputing the loss on
the same batch after the step gives a strictly smaller loss. -/
theorem c8_descent (xs : List Vec) (ys : List ℤ) (c lr : ℚ)
    (hne : xs ≠ []) (hx : ∀ x ∈ xs, x.length = 7) (hlen : ys.length = xs.length)
    (hlr0 : 0 < lr) (hlr1 : lr < 1)
    (hc : c ≠ (to_float ys).sum / (xs.length : ℚ)) :
    mean_squared_error (to_float ys)
        (predictionsOf (sgdStep (biasOnly c 0) lr xs (to_float ys)) xs)
      < mean_squared_error (to_float ys) (predictionsOf (biasOnly c 0) xs) := by
  have hN0 : (0 : ℚ) < (xs.length : ℚ) := by
    exact_mod_cast List.length_pos.mpr hne
  have hlenF : (to_float ys).length = xs.length := by
    rw [to_float_length, hlen]
  rw [sgdStep_biasOnly c lr 0 xs (to_float ys) hx hlenF]
  rw [predictionsOf_biasOnly, predictionsOf_biasOnly]
  unfold mean_squared_error
  rw [meanSq_const _ (to_float ys) xs hlenF, meanSq_const c (to_float ys) xs hlenF]
  rw [sum_sq_expand, sum_sq_expand, hlenF]
  set N : ℚ := (xs.length : ℚ) with hNdef
  set S : ℚ := (to_float ys).sum with hSdef
  set Q : ℚ := ((to_float ys).map (fun y => y ^ 2)).sum with hQdef
  set c2 : ℚ := c - lr * (2 * (c * N - S) / N) with hc2def
  have hD : c * N - S ≠ 0 := by
    intro h0
    exact hc ((eq_div_iff hN0.ne').mpr (by linarith))
  have hDsq : 0 < (c * N - S) ^ 2 :=
    lt_of_le_of_ne (sq_nonneg _) (Ne.symm (pow_ne_zero 2 hD))
  have key : (Q - 2 * c2 * S + N * c2 ^ 2) - (Q - 2 * c * S + N * c ^ 2)
      = -(4 * lr * (1 - lr) * (c * N - S) ^ 2) / N := by
    rw [hc2def]
    field_simp
    ring
  have hnum : 0 < 4 * lr * (1 - lr) * (c * N - S) ^ 2 := by
    have h1 : 0 < 1 - lr := by linarith
    positivity
  have hkeyneg : (Q - 2 * c2 * S + N * c2 ^ 2) - (Q - 2 * c * S + N * c ^ 2) < 0 := by
    rw [key]
    apply div_neg_of_neg_of_pos _ hN0
    linarith
  have hab : Q - 2 * c2 * S + N * c2 ^ 2 < Q - 2 * c * S + N * c ^ 2 := by linarith
  exact (div_lt_div_iff_of_pos_right hN0).mpr hab

end Abalone
namespace Abalone

/-- C8 (counterexample): with all-zero weights and biases and the batch of
two zero rows labelled 1 and −1, the loss is 1 (nonzero) but the loss
gradient vanishes (a dead-ReLU stationary point with zero mean residual), so
the training step with the source's positive learning rate 0.001 — far below
any stability bound, and likewise for every positive learning rate, since the
step is a no-op — leaves the parameters at zero weights and the recomputed
loss at exactly 1: the loss is not strictly smaller after the step. -/
theorem c8_stationary_counterexample :
    mean_squared_error (to_float [1, -1]) (predictionsOf zeroParams [zeroVec 7, zeroVec 7]) = 1
    ∧ sgdStep zeroParams LEARNING_RATE [zeroVec 7, zeroVec 7] (to_float [1, -1]) = biasOnly 0 1
    ∧ mean_squared_error (to_float [1, -1])
        (predictionsOf (sgdStep zeroParams LEARNING_RATE [zeroVec 7, zeroVec 7] (to_float [1, -1]))
          [zeroVec 7, zeroVec 7]) = 1
    ∧ ¬ (mean_squared_error (to_float [1, -1])
          (predictionsOf (sgdStep zeroParams LEARNING_RATE [zeroVec 7, zeroVec 7] (to_float [1, -1]))
            [zeroVec 7, zeroVec 7])
        < mean_squared_error (to_float [1, -1]) (predictionsOf zeroParams [zeroVec 7, zeroVec 7])) := by
  have hsum : (to_float [1, -1]).sum = 0 := by
    unfold to_float
    norm_num
  have hloss0 : mean_squared_error (to_float [1, -1])
      (predictionsOf zeroParams [zeroVec 7, zeroVec 7]) = 1 := by
    show mean_squared_error (to_float [1, -1])
      (predictionsOf (biasOnly 0 0) [zeroVec 7, zeroVec 7]) = 1
    rw [predictionsOf_biasOnly]
    unfold mean_squared_error meanSq to_float
    norm_num
  have hstep : sgdStep zeroParams LEARNING_RATE [zeroVec 7, zeroVec 7] (to_float [1, -1])
      = biasOnly 0 1 := by
    show sgdStep (biasOnly 0 0) LEARNING_RATE [zeroVec 7, zeroVec 7] (to_float [1, -1])
      = biasOnly 0 1
    rw [sgdStep_biasOnly 0 LEARNING_RATE 0 [zeroVec 7, zeroVec 7] (to_float [1, -1])
      (by decide) (by rw [to_float_length]
                      rfl)]
    rw [hsum]
    norm_num
  have hloss1 : mean_squared_error (to_float [1, -1])
      (predictionsOf (sgdStep zeroParams LEARNING_RATE [zeroVec 7, zeroVec 7] (to_float [1, -1]))
        [zeroVec 7, zeroVec 7]) = 1 := by
    rw [hstep, predictionsOf_biasOnly]
    unfold mean_squared_error meanSq to_float
    norm_num
  refine ⟨hloss0, hstep, hloss1, ?_⟩
  rw [hloss0, hloss1]
  exact lt_irrefl 1

theorem c8_witness :
    ([zeroVec 7] ≠ ([] : List Vec)) ∧ (∀ x ∈ [zeroVec 7], x.length = 7) ∧
    ([(5 : ℤ)].length = [zeroVec 7].length) ∧ ((0 : ℚ) < 1 / 2) ∧ ((1 / 2 : ℚ) < 1) ∧
    ((0 : ℚ) ≠ (to_float [5]).sum / (([zeroVec 7] : List Vec).length : ℚ)) ∧
    mean_squared_error (to_float [5])
        (predictionsOf (sgdStep (biasOnly 0 0) (1 / 2) [zeroVec 7] (to_float [5])) [zeroVec 7])
      < mean_squared_error (to_float [5]) (predictionsOf (biasOnly 0 0) [zeroVec 7]) :=
  ⟨by decide, by decide, by decide, by norm_num, by norm_num,
   by unfold to_float
      norm_num,
   c8_descent [zeroVec 7] [5] 0 (1 / 2) (by decide) (by decide) (by decide)
     (by norm_num) (by norm_num)
     (by unfold to_float
         norm_num)⟩

end Abalone
